import Mathlib

/-!
Shallow embedding of the ClimateSense front end.

Sources:
* `src/unnamed/part_000` — the application component (`App`, workflows
  `handleGenerate`, `handleRefine`, `handleRunDiagnostics`) and the shared
  type declarations (`types.ts`).
* `src/components/FloorPlanViewer.tsx` — bounding box, centroid map,
  `findCentroid`, diagnostic overlays, airflow lines.
* `src/components/ClimateCard.tsx` — `avgScore`.

Numbers are modelled as rationals, strings as Lean `String`
(JavaScript `toLowerCase`/`trim`/`includes` are modelled by `jsToLower`,
`jsTrim` and list-infix containment on the character lists, which agree
with the JavaScript operations on the ASCII data this program handles).
Remote calls are modelled by oracles returning `Except`, and each workflow
records the sequence of states it stores (one entry per `setState`) together
with the remote calls it issues.
-/

namespace ClimateSense

/-- JS `s.includes(sub)`: `sub` occurs contiguously in `s`. -/
def jsIncludes (s sub : String) : Bool := decide (sub.toList <:+: s.toList)

/-- JS `s.toLowerCase()`, modelled characterwise (the strings this program
handles are ASCII, where the two agree). -/
def jsToLower (s : String) : String := ⟨s.data.map Char.toLower⟩

/-- JS `s.trim()`: strip leading and trailing whitespace. -/
def jsTrim (s : String) : String :=
  ⟨((s.data.dropWhile Char.isWhitespace).reverse.dropWhile Char.isWhitespace).reverse⟩

/-- Compass side of a window (`types.ts`, `WindowPlacement.side`). -/
inductive Side
  | north | south | east | west
deriving DecidableEq, Repr

/-- `types.ts` `WindowPlacement`. -/
structure WindowPlacement where
  side : Side
  position : ℚ
  width : ℚ
  shading : Bool
deriving DecidableEq, Repr

/-- `types.ts` `Room.type` (closed set of categories). -/
inductive RoomType
  | living | bedroom | kitchen | bathroom | utility | buffer | circulation
deriving DecidableEq, Repr

/-- `types.ts` `Room`. -/
structure Room where
  id : String
  name : String
  type : RoomType
  x : ℚ
  y : ℚ
  width : ℚ
  height : ℚ
  windows : List WindowPlacement
  reasoning : String
deriving DecidableEq, Repr

/-- `types.ts` `ClimateData.averageTemp`. -/
structure TempRange where
  min : ℚ
  max : ℚ
deriving DecidableEq, Repr

/-- `types.ts` `ClimateData`. -/
structure ClimateData where
  location : String
  climateZone : String
  averageTemp : TempRange
  solarPotential : String
  prevailingWinds : String
  climate_challenges : List String
  design_strategies : List String
  orientation_guidance : String
  window_guidance : String
  zoning_guidance : String
deriving DecidableEq, Repr

/-- `types.ts` `RejectedAlternative`. -/
structure RejectedAlternative where
  option : String
  reason_for_rejection : String
deriving DecidableEq, Repr

/-- Three-valued level used by `HeatRiskZone.level` and `DaylightZone.quality`. -/
inductive Level
  | low | medium | high
deriving DecidableEq, Repr

/-- `types.ts` `HeatRiskZone`. -/
structure HeatRiskZone where
  room : String
  level : Level
deriving DecidableEq, Repr

/-- `types.ts` `AirflowPath.strength` (closed set). -/
inductive Strength
  | weak | moderate | strong
deriving DecidableEq, Repr

/-- `types.ts` `AirflowPath`. The source fields are `from` and `to`
(`from` is a Lean keyword, hence `fromRef`/`toRef`). Note the declared
fields: there is no `efficiency` field. -/
structure AirflowPath where
  fromRef : String
  toRef : String
  strength : Strength
deriving DecidableEq, Repr

/-- `types.ts` `DaylightZone`. -/
structure DaylightZone where
  room : String
  quality : Level
deriving DecidableEq, Repr

/-- `types.ts` `ClimateDiagnostics`. -/
structure ClimateDiagnostics where
  heat_risk : List HeatRiskZone
  airflow : List AirflowPath
  daylight : List DaylightZone
deriving DecidableEq, Repr

/-- `types.ts` `FloorPlan.performanceMetrics`. -/
structure PerformanceMetrics where
  naturalLightScore : ℚ
  ventilationEfficiency : ℚ
  thermalMassUtilization : ℚ
  solarControlRating : ℚ
deriving DecidableEq, Repr

/-- `types.ts` `FloorPlan`. -/
structure FloorPlan where
  designTitle : String
  orientation : ℚ
  rooms : List Room
  totalArea : ℚ
  performanceMetrics : PerformanceMetrics
  architectReasoning : String
  rejected_alternatives : List RejectedAlternative
  diagnostics : ClimateDiagnostics
deriving DecidableEq, Repr

/-- `types.ts` `RefinementResult.expected_improvements`. -/
structure ExpectedImprovements where
  heat : String
  airflow : String
  heat_improvement_pct : ℚ
  airflow_improvement_pct : ℚ
deriving DecidableEq, Repr

/-- `types.ts` `RefinementResult`. -/
structure RefinementResult where
  revised_floor_plan : FloorPlan
  changes_made : List String
  expected_improvements : ExpectedImprovements
deriving DecidableEq, Repr

/-- `types.ts` `OptimizationEvaluation`. -/
structure OptimizationEvaluation where
  iterate : Bool
  recommended_adjustments : List String
  expected_benefit : String
deriving DecidableEq, Repr

/-- `types.ts` `DesignState`. -/
structure DesignState where
  isGenerating : Bool
  isRefining : Bool
  isEvaluating : Bool
  isDiagnosing : Bool
  climate : Option ClimateData := none
  floorPlan : Option FloorPlan := none
  previousFloorPlan : Option FloorPlan := none
  refinement : Option RefinementResult := none
  optimizationVerdict : Option OptimizationEvaluation := none
  error : Option String := none
  history : List String := []
deriving DecidableEq, Repr

/-- Initial state of `App` (`useState<DesignState>({ isGenerating: false, ... })`). -/
def initialState : DesignState :=
  { isGenerating := false, isRefining := false, isEvaluating := false, isDiagnosing := false }

/-! ## Floor plan renderer (`FloorPlanViewer.tsx`) -/

/-- `FloorPlanViewer`: `const SCALE = 35`. -/
def SCALE : ℚ := 35

/-- `FloorPlanViewer`: `const PADDING = 60`. -/
def PADDING : ℚ := 60

/-- The running bounding box of the `dimensions` computation. -/
structure Bounds where
  minX : ℚ
  minY : ℚ
  maxX : ℚ
  maxY : ℚ
deriving DecidableEq, Repr

/-- One step of the `plan.rooms.forEach` loop in `dimensions`:
`minX = Math.min(minX, r.x)` … `maxY = Math.max(maxY, r.y + r.height)`. -/
def boundsStep (b : Bounds) (r : Room) : Bounds :=
  ⟨min b.minX r.x, min b.minY r.y, max b.maxX (r.x + r.width), max b.maxY (r.y + r.height)⟩

/-- Bounding box over all rooms. The source starts its fold from
`Infinity`/`-Infinity` sentinels; for a nonempty room list that fold equals
folding from the first room's own rectangle (the sentinel loses every
`min`/`max`), and for an empty list the source produces non-finite values,
modelled here as `none`. -/
def planBounds : List Room → Option Bounds
  | [] => none
  | r :: rs => some (rs.foldl boundsStep ⟨r.x, r.y, r.x + r.width, r.y + r.height⟩)

/-- Result of the `dimensions` memo. -/
structure Dims where
  width : ℚ
  height : ℚ
  offsetX : ℚ
  offsetY : ℚ
deriving DecidableEq, Repr

/-- `dimensions`: `width: (maxX - minX) * SCALE + PADDING * 2`, etc. -/
def dimsOf (b : Bounds) : Dims :=
  ⟨(b.maxX - b.minX) * SCALE + PADDING * 2,
   (b.maxY - b.minY) * SCALE + PADDING * 2,
   b.minX, b.minY⟩

/-- The `dimensions` memo of `FloorPlanViewer`. -/
def dimensions (plan : FloorPlan) : Option Dims :=
  (planBounds plan.rooms).map dimsOf

/-- A 2D point (an entry of the `roomCentroids` record). -/
structure Point where
  x : ℚ
  y : ℚ
deriving DecidableEq, Repr

/-- Centroid of a room as computed inside the `roomCentroids` memo:
`x: (r.x - dimensions.offsetX) * SCALE + PADDING + (r.width * SCALE) / 2`, etc. -/
def roomCentroid (d : Dims) (r : Room) : Point :=
  ⟨(r.x - d.offsetX) * SCALE + PADDING + r.width * SCALE / 2,
   (r.y - d.offsetY) * SCALE + PADDING + r.height * SCALE / 2⟩

/-- JavaScript object assignment `c[k] = v` on a string-keyed record,
modelled on an association list that keeps the first-insertion order of
keys and the last-assigned value (the semantics of `Object.entries`). -/
def insertEntry (m : List (String × Point)) (k : String) (v : Point) : List (String × Point) :=
  if m.any (fun kv => kv.1 = k) then
    m.map (fun kv => if kv.1 = k then (k, v) else kv)
  else
    m ++ [(k, v)]

/-- The `roomCentroids` memo: a record keyed by `r.name.toLowerCase()`. -/
def roomCentroids (plan : FloorPlan) : List (String × Point) :=
  match dimensions plan with
  | none => []
  | some d => plan.rooms.foldl (fun m r => insertEntry m (jsToLower r.name) (roomCentroid d r)) []

/-- `findCentroid`: normalize the reference (`roomRef.toLowerCase().trim()`),
try the exact record lookup first, otherwise take the first entry of
`Object.entries(roomCentroids)` with `key.includes(ref) || ref.includes(key)`. -/
def findCentroid (plan : FloorPlan) (roomRef : String) : Option Point :=
  let ref := jsTrim (jsToLower roomRef)
  match (roomCentroids plan).find? (fun kv => kv.1 = ref) with
  | some kv => some kv.2
  | none =>
    ((roomCentroids plan).find? (fun kv => jsIncludes kv.1 ref || jsIncludes ref kv.1)).map
      (fun kv => kv.2)

/-- The room-to-zone matching predicate used for heat-risk and daylight
overlays: `z.room.toLowerCase().includes(room.name.toLowerCase()) ||
room.name.toLowerCase().includes(z.room.toLowerCase())`. -/
def overlayMatches (zoneRoom roomName : String) : Bool :=
  jsIncludes (jsToLower zoneRoom) (jsToLower roomName) || jsIncludes (jsToLower roomName) (jsToLower zoneRoom)

/-- `const heatRisk = plan.diagnostics?.heat_risk?.find(z => ...)`. -/
def heatRiskFor (plan : FloorPlan) (room : Room) : Option HeatRiskZone :=
  plan.diagnostics.heat_risk.find? (fun z => overlayMatches z.room room.name)

/-- `const daylight = plan.diagnostics?.daylight?.find(z => ...)`. -/
def daylightFor (plan : FloorPlan) (room : Room) : Option DaylightZone :=
  plan.diagnostics.daylight.find? (fun z => overlayMatches z.room room.name)

/-- The renderer reads `flow.efficiency`, but `AirflowPath` declares no such
field (its declared fields are `from`, `to`, `strength`), so the JavaScript
property access yields `undefined` on every entry; modelled as `none`. -/
def AirflowPath.efficiencyField (_ : AirflowPath) : Option String := none

/-- `strokeWidth={flow.efficiency === 'high' ? 3 : 2}`. -/
def airflowStrokeWidth (flow : AirflowPath) : ℚ :=
  if flow.efficiencyField = some ("high") then 3 else 2

/-- `strokeOpacity={flow.efficiency === 'high' ? 0.9 : 0.6}`. -/
def airflowStrokeOpacity (flow : AirflowPath) : ℚ :=
  if flow.efficiencyField = some ("high") then 9/10 else 6/10

/-- A rendered airflow line (`<line x1 y1 x2 y2 strokeWidth strokeOpacity>`). -/
structure AirflowLine where
  p1 : Point
  p2 : Point
  width : ℚ
  opacity : ℚ
deriving DecidableEq, Repr

/-- The airflow branch of the renderer: resolve both endpoints with
`findCentroid`; `if (!from || !to) return null;` otherwise draw the line. -/
def renderAirflowLine (plan : FloorPlan) (flow : AirflowPath) : Option AirflowLine :=
  match findCentroid plan flow.fromRef, findCentroid plan flow.toRef with
  | some a, some b => some ⟨a, b, airflowStrokeWidth flow, airflowStrokeOpacity flow⟩
  | _, _ => none

/-! ## Climate card (`ClimateCard.tsx`) -/

/-- JavaScript `Math.round` on an exact rational: round half toward `+∞`. -/
def jsRound (q : ℚ) : ℤ := ⌊q + 1/2⌋

/-- `avgScore` of `ClimateCard`:
`Math.round(((naturalLightScore + ventilationEfficiency +
thermalMassUtilization + solarControlRating) / 4) * 100)`. -/
def avgScore (m : PerformanceMetrics) : ℤ :=
  jsRound (((m.naturalLightScore + m.ventilationEfficiency +
      m.thermalMassUtilization + m.solarControlRating) / 4) * 100)

/-! ## Application workflows (`App` in `src/unnamed/part_000`)

Each handler is modelled as a function of an oracle (the outcomes of the
remote calls), the form inputs and the state at invocation. It returns the
list of states produced by its successive `setState` calls, in order, and
the list of remote calls it issues, in order. An early `return` (failed
guard) produces no states and no calls. -/

/-- One remote call of `geminiService.ts`, with the arguments it receives. -/
inductive RemoteCall
  | climateCall (location plotDimensions priority : String)
  | designCall (climate : ClimateData) (plotDimensions requirements : String)
  | refineCall (currentPlan : FloorPlan) (climate : ClimateData)
  | evalCall (metrics : PerformanceMetrics)
  | diagCall (floorPlan : FloorPlan)
deriving DecidableEq, Repr

/-- The trace of one workflow invocation. -/
structure WorkflowRun where
  states : List DesignState
  calls : List RemoteCall
deriving DecidableEq, Repr

/-- State after a workflow run: the last `setState` result, or the
invocation state when the run stored nothing. -/
def finalState (s : DesignState) (run : WorkflowRun) : DesignState :=
  run.states.getLast?.getD s

/-- Outcomes of the two remote calls issued by `handleGenerate`. -/
structure GenOracle where
  getClimateData : Except String ClimateData
  generateDesign : ClimateData → Except String FloorPlan

/-- `err.message || 'Failed to generate design.'` (an empty message is
falsy in JS, so the fallback text is used). -/
def genErrMsg (e : String) : String :=
  if e = ("") then ("Failed to generate design.") else e

/-- `handleGenerate`: guard `if (!location) return;`, then the busy/clear
update, then `getClimateData` and `generateDesign` sequentially; one
success `setState` storing both results and appending to history, or one
catch `setState` recording the error. -/
def handleGenerate (o : GenOracle) (location plotDimensions priority requirements : String)
    (s : DesignState) : WorkflowRun :=
  if location = "" then ⟨[], []⟩ else
  let s1 : DesignState :=
    { s with isGenerating := true, error := none, refinement := none,
             optimizationVerdict := none, previousFloorPlan := none }
  match o.getClimateData with
  | .error e =>
      ⟨[s1, { s1 with isGenerating := false, error := some (genErrMsg e) }],
       [.climateCall location plotDimensions priority]⟩
  | .ok climate =>
    match o.generateDesign climate with
    | .error e =>
        ⟨[s1, { s1 with isGenerating := false, error := some (genErrMsg e) }],
         [.climateCall location plotDimensions priority,
          .designCall climate plotDimensions requirements]⟩
    | .ok plan =>
        ⟨[s1, { s1 with climate := some climate, floorPlan := some plan,
                        isGenerating := false,
                        history := s1.history ++ [("Designed for ") ++ location] }],
         [.climateCall location plotDimensions priority,
          .designCall climate plotDimensions requirements]⟩

/-- Outcomes of the two remote calls issued by `handleRefine`. -/
structure RefineOracle where
  refineDesign : FloorPlan → ClimateData → Except String RefinementResult
  evaluateOptimization : PerformanceMetrics → Except String OptimizationEvaluation

/-- The fixed message of `handleRefine`'s catch block. -/
def refineErrMsg : String := "Optimization cycle failed. Please try again."

/-- `handleRefine`: guard `if (!state.floorPlan || !state.climate) return;`,
set the refining flag, call `refineDesign` on the plan captured at
invocation; on success commit the refinement, then set the evaluating flag
and call `evaluateOptimization` on the revised plan's metrics; a failure of
either call lands in the single catch block. -/
def handleRefine (o : RefineOracle) (s : DesignState) : WorkflowRun :=
  match s.floorPlan, s.climate with
  | some originalPlan, some climate =>
    let s1 : DesignState := { s with isRefining := true }
    match o.refineDesign originalPlan climate with
    | .error _ =>
        ⟨[s1, { s1 with isRefining := false, isEvaluating := false,
                        error := some refineErrMsg }],
         [.refineCall originalPlan climate]⟩
    | .ok refinement =>
      let s2 : DesignState :=
        { s1 with isRefining := false, refinement := some refinement,
                  previousFloorPlan := some originalPlan,
                  floorPlan := some refinement.revised_floor_plan,
                  history := s1.history ++ [("Refined design for performance optimization")] }
      let s3 : DesignState := { s2 with isEvaluating := true }
      match o.evaluateOptimization refinement.revised_floor_plan.performanceMetrics with
      | .error _ =>
          ⟨[s1, s2, s3, { s3 with isRefining := false, isEvaluating := false,
                                  error := some refineErrMsg }],
           [.refineCall originalPlan climate,
            .evalCall refinement.revised_floor_plan.performanceMetrics]⟩
      | .ok verdict =>
          ⟨[s1, s2, s3, { s3 with isEvaluating := false,
                                  optimizationVerdict := some verdict }],
           [.refineCall originalPlan climate,
            .evalCall refinement.revised_floor_plan.performanceMetrics]⟩
  | _, _ => ⟨[], []⟩

/-- Outcome of the remote call issued by `handleRunDiagnostics`. -/
structure DiagOracle where
  getDiagnostics : FloorPlan → Except String ClimateDiagnostics

/-- The fixed message of `handleRunDiagnostics`'s catch block. -/
def diagErrMsg : String := "Diagnostic audit failed."

/-- `handleRunDiagnostics`: guard `if (!state.floorPlan) return;`, set the
diagnosing flag, call `getDiagnostics` on the plan captured at invocation;
on success replace only the plan's diagnostics
(`prev.floorPlan ? { ...prev.floorPlan, diagnostics } : undefined`). -/
def handleRunDiagnostics (o : DiagOracle) (s : DesignState) : WorkflowRun :=
  match s.floorPlan with
  | some plan =>
    let s1 : DesignState := { s with isDiagnosing := true }
    match o.getDiagnostics plan with
    | .error _ =>
        ⟨[s1, { s1 with isDiagnosing := false, error := some diagErrMsg }],
         [.diagCall plan]⟩
    | .ok diagnostics =>
        ⟨[s1, { s1 with isDiagnosing := false,
                        floorPlan := s1.floorPlan.map
                          (fun p => { p with diagnostics := diagnostics }) }],
         [.diagCall plan]⟩
  | none => ⟨[], []⟩

/-- Equality of every `FloorPlan` field except `diagnostics`. -/
def samePlanFrame (a b : FloorPlan) : Prop :=
  a.designTitle = b.designTitle ∧ a.orientation = b.orientation ∧ a.rooms = b.rooms ∧
  a.totalArea = b.totalArea ∧ a.performanceMetrics = b.performanceMetrics ∧
  a.architectReasoning = b.architectReasoning ∧
  a.rejected_alternatives = b.rejected_alternatives

/-! ## Concrete instances

Small concrete rooms, plans, states and oracles used to evaluate the
definitions on explicit inputs. -/

/-- A room named `b`. -/
def cRoomB : Room := ⟨("rb"), ("b"), .living, 0, 0, 4, 3, [], ("")⟩

/-- A plan whose heat-risk list holds a substring-matching zone before an
exactly-matching one for the room named `b`. -/
def cPlanHeat : FloorPlan :=
  { designTitle := ("heat"), orientation := 0, rooms := [cRoomB], totalArea := 12,
    performanceMetrics := ⟨1, 1, 1, 1⟩, architectReasoning := (""),
    rejected_alternatives := [],
    diagnostics := ⟨[⟨("room b"), .high⟩, ⟨("b"), .low⟩], [], []⟩ }

/-- The exact-match entry of `cPlanHeat`'s centroid map for the key `b`. -/
def cEntryB : String × Point :=
  ((roomCentroids cPlanHeat).find? (fun kv => kv.1 = jsTrim (jsToLower ("b")))).getD
    (("") , ⟨0, 0⟩)

/-- First room of the duplicate-name plan, named `A`. -/
def cRoomA1 : Room := ⟨("r1"), ("A"), .living, 0, 0, 2, 2, [], ("")⟩

/-- Second room of the duplicate-name plan, named `a` — same lowercased
name as `cRoomA1`, different position. -/
def cRoomA2 : Room := ⟨("r2"), ("a"), .bedroom, 5, 0, 2, 2, [], ("")⟩

/-- A plan with two rooms whose names collide after lowercasing. -/
def cPlanDup : FloorPlan :=
  { designTitle := ("dup"), orientation := 0, rooms := [cRoomA1, cRoomA2], totalArea := 8,
    performanceMetrics := ⟨1, 1, 1, 1⟩, architectReasoning := (""),
    rejected_alternatives := [], diagnostics := ⟨[], [], []⟩ }

/-- The rendering dimensions of `cPlanDup`. -/
def cDimsDup : Dims := (dimensions cPlanDup).getD ⟨0, 0, 0, 0⟩

/-- A kitchen room. -/
def cRoomK : Room := ⟨("rk"), ("Kitchen"), .kitchen, 0, 0, 3, 2, [], ("")⟩

/-- A living room. -/
def cRoomL : Room := ⟨("rl"), ("Living"), .living, 4, 1, 5, 4, [], ("")⟩

/-- A plan with two rooms with distinct lowercased names. -/
def cPlanTwo : FloorPlan :=
  { designTitle := ("two"), orientation := 0, rooms := [cRoomK, cRoomL], totalArea := 26,
    performanceMetrics := ⟨1, 0, 1, 1⟩, architectReasoning := (""),
    rejected_alternatives := [], diagnostics := ⟨[], [], []⟩ }

/-- The bounding box of `cPlanTwo`. -/
def cBoundsTwo : Bounds := (planBounds cPlanTwo.rooms).getD ⟨0, 0, 0, 0⟩

/-- The rendering dimensions of `cPlanTwo`. -/
def cDimsTwo : Dims := (dimensions cPlanTwo).getD ⟨0, 0, 0, 0⟩

/-- A concrete climate summary. -/
def cClimate : ClimateData :=
  { location := ("Phoenix"), climateZone := ("hot-arid"), averageTemp := ⟨10, 40⟩,
    solarPotential := ("high"), prevailingWinds := ("SW"),
    climate_challenges := [("extreme heat")], design_strategies := [("shading")],
    orientation_guidance := (""), window_guidance := (""), zoning_guidance := ("") }

/-- A generate oracle whose two calls both succeed. -/
def cGenOracleOk : GenOracle := ⟨.ok cClimate, fun _ => .ok cPlanTwo⟩

/-- A generate oracle whose climate call succeeds and whose design call
fails — the execution shape of the second-failure scenario. -/
def cGenOracleFail : GenOracle := ⟨.ok cClimate, fun _ => .error ("boom")⟩

/-- A state holding `cPlanTwo` and `cClimate`, as after a successful
generate. -/
def cStateWithPlan : DesignState :=
  { initialState with climate := some cClimate, floorPlan := some cPlanTwo,
                      history := [("Designed for Phoenix")] }

/-- A concrete refinement result revising `cPlanTwo` to `cPlanDup`. -/
def cRefinement : RefinementResult :=
  { revised_floor_plan := cPlanDup, changes_made := [("moved kitchen")],
    expected_improvements := ⟨("less heat"), ("more air"), 12, 8⟩ }

/-- A concrete optimization verdict. -/
def cVerdict : OptimizationEvaluation :=
  { iterate := false, recommended_adjustments := [], expected_benefit := ("none left") }

/-- A refine oracle whose two calls both succeed. -/
def cRefineOracleOk : RefineOracle := ⟨fun _ _ => .ok cRefinement, fun _ => .ok cVerdict⟩

/-- A concrete diagnostics bundle. -/
def cDiag1 : ClimateDiagnostics :=
  ⟨[⟨("Kitchen"), .medium⟩], [⟨("Kitchen"), ("Living"), .strong⟩], [⟨("Living"), .high⟩]⟩

/-- A second, different diagnostics bundle. -/
def cDiag2 : ClimateDiagnostics := ⟨[⟨("Living"), .low⟩], [], []⟩

/-- A diagnostics oracle returning `cDiag1`. -/
def cDiagOracle1 : DiagOracle := ⟨fun _ => .ok cDiag1⟩

/-- A diagnostics oracle returning `cDiag2`. -/
def cDiagOracle2 : DiagOracle := ⟨fun _ => .ok cDiag2⟩

/-! ## Lemmas about the bounding-box fold -/

theorem foldl_boundsStep_minX_le (rs : List Room) (b : Bounds) :
    (rs.foldl boundsStep b).minX ≤ b.minX := by
  induction rs generalizing b with
  | nil => simp
  | cons a as ih =>
      simp only [List.foldl_cons]
      exact le_trans (ih (boundsStep b a)) (min_le_left _ _)

theorem foldl_boundsStep_minY_le (rs : List Room) (b : Bounds) :
    (rs.foldl boundsStep b).minY ≤ b.minY := by
  induction rs generalizing b with
  | nil => simp
  | cons a as ih =>
      simp only [List.foldl_cons]
      exact le_trans (ih (boundsStep b a)) (min_le_left _ _)

theorem foldl_boundsStep_maxX_ge (rs : List Room) (b : Bounds) :
    b.maxX ≤ (rs.foldl boundsStep b).maxX := by
  induction rs generalizing b with
  | nil => simp
  | cons a as ih =>
      simp only [List.foldl_cons]
      exact le_trans (le_max_left _ _) (ih (boundsStep b a))

theorem foldl_boundsStep_maxY_ge (rs : List Room) (b : Bounds) :
    b.maxY ≤ (rs.foldl boundsStep b).maxY := by
  induction rs generalizing b with
  | nil => simp
  | cons a as ih =>
      simp only [List.foldl_cons]
      exact le_trans (le_max_left _ _) (ih (boundsStep b a))

theorem foldl_boundsStep_minX_le_mem (rs : List Room) :
    ∀ (b : Bounds), ∀ r ∈ rs, (rs.foldl boundsStep b).minX ≤ r.x := by
  induction rs with
  | nil => intro b r hr; cases hr
  | cons a as ih =>
      intro b r hr
      simp only [List.foldl_cons]
      rcases List.mem_cons.mp hr with h | h
      · subst h
        exact le_trans (foldl_boundsStep_minX_le as _) (min_le_right _ _)
      · exact ih _ r h

theorem foldl_boundsStep_minY_le_mem (rs : List Room) :
    ∀ (b : Bounds), ∀ r ∈ rs, (rs.foldl boundsStep b).minY ≤ r.y := by
  induction rs with
  | nil => intro b r hr; cases hr
  | cons a as ih =>
      intro b r hr
      simp only [List.foldl_cons]
      rcases List.mem_cons.mp hr with h | h
      · subst h
        exact le_trans (foldl_boundsStep_minY_le as _) (min_le_right _ _)
      · exact ih _ r h

theorem foldl_boundsStep_maxX_ge_mem (rs : List Room) :
    ∀ (b : Bounds), ∀ r ∈ rs, r.x + r.width ≤ (rs.foldl boundsStep b).maxX := by
  induction rs with
  | nil => intro b r hr; cases hr
  | cons a as ih =>
      intro b r hr
      simp only [List.foldl_cons]
      rcases List.mem_cons.mp hr with h | h
      · subst h
        exact le_trans (le_max_right _ _) (foldl_boundsStep_maxX_ge as _)
      · exact ih _ r h

theorem foldl_boundsStep_maxY_ge_mem (rs : List Room) :
    ∀ (b : Bounds), ∀ r ∈ rs, r.y + r.height ≤ (rs.foldl boundsStep b).maxY := by
  induction rs with
  | nil => intro b r hr; cases hr
  | cons a as ih =>
      intro b r hr
      simp only [List.foldl_cons]
      rcases List.mem_cons.mp hr with h | h
      · subst h
        exact le_trans (le_max_right _ _) (foldl_boundsStep_maxY_ge as _)
      · exact ih _ r h

/-- Claim C2: for every floor plan with rooms, the renderer's bounding box
encloses every room rectangle (`minX ≤ r.x`, `r.x + r.width ≤ maxX`, and
analogously in `y`), and the canvas width and height equal
`(maxX − minX)·35 + 2·60` and `(maxY − minY)·35 + 2·60`, the scale being 35
and the padding 60. -/
theorem bounding_box_encloses_rooms_and_canvas_size (plan : FloorPlan) (b : Bounds) (d : Dims)
    (hb : planBounds plan.rooms = some b) (hd : dimensions plan = some d) :
    (∀ r ∈ plan.rooms, b.minX ≤ r.x ∧ r.x + r.width ≤ b.maxX ∧
        b.minY ≤ r.y ∧ r.y + r.height ≤ b.maxY) ∧
    d.width = (b.maxX - b.minX) * 35 + 2 * 60 ∧
    d.height = (b.maxY - b.minY) * 35 + 2 * 60 := by
  have hdim : d = dimsOf b := by
    unfold dimensions at hd
    rw [hb] at hd
    simpa using hd.symm
  constructor
  · intro r hr
    rcases hrooms : plan.rooms with _ | ⟨r0, rs⟩
    · rw [hrooms] at hb; simp [planBounds] at hb
    · rw [hrooms] at hb
      simp only [planBounds, Option.some.injEq] at hb
      rw [hrooms] at hr
      subst hb
      rcases List.mem_cons.mp hr with h | h
      · subst h
        refine ⟨?_, ?_, ?_, ?_⟩
        · exact foldl_boundsStep_minX_le rs _
        · exact foldl_boundsStep_maxX_ge rs _
        · exact foldl_boundsStep_minY_le rs _
        · exact foldl_boundsStep_maxY_ge rs _
      · refine ⟨?_, ?_, ?_, ?_⟩
        · exact foldl_boundsStep_minX_le_mem rs _ r h
        · exact foldl_boundsStep_maxX_ge_mem rs _ r h
        · exact foldl_boundsStep_minY_le_mem rs _ r h
        · exact foldl_boundsStep_maxY_ge_mem rs _ r h
  · subst hdim
    constructor
    · show (b.maxX - b.minX) * SCALE + PADDING * 2 = (b.maxX - b.minX) * 35 + 2 * 60
      unfold SCALE PADDING
      ring
    · show (b.maxY - b.minY) * SCALE + PADDING * 2 = (b.maxY - b.minY) * 35 + 2 * 60
      unfold SCALE PADDING
      ring

/-- Witness for C2 at the concrete two-room plan `cPlanTwo`. -/
theorem bounding_box_encloses_rooms_and_canvas_size_witness :
    (∀ r ∈ cPlanTwo.rooms, cBoundsTwo.minX ≤ r.x ∧ r.x + r.width ≤ cBoundsTwo.maxX ∧
        cBoundsTwo.minY ≤ r.y ∧ r.y + r.height ≤ cBoundsTwo.maxY) ∧
    cDimsTwo.width = (cBoundsTwo.maxX - cBoundsTwo.minX) * 35 + 2 * 60 ∧
    cDimsTwo.height = (cBoundsTwo.maxY - cBoundsTwo.minY) * 35 + 2 * 60 :=
  bounding_box_encloses_rooms_and_canvas_size cPlanTwo cBoundsTwo cDimsTwo rfl rfl

/-! ## Room-reference resolution -/

/-- Claim C1 (amended): airflow endpoint resolution lowercases and trims the
reference while room-name keys are only lowercased; an exact match against
the key map is preferred over substring matching; with no exact match the
first entry of the map (first-insertion order of distinct lowercased names)
whose key contains the reference or is contained by it is returned, and with
no substring relationship at all the resolution returns no match and the
airflow line is omitted. Heat-risk and daylight overlays instead take, per
room, the first diagnostic entry in list order under bidirectional
case-insensitive substring containment, with no trimming and no exact-match
preference, and a room matching no entry receives no overlay. -/
theorem room_reference_resolution (plan : FloorPlan) (roomRef : String) (room : Room) :
    (∀ kv, (roomCentroids plan).find? (fun e => e.1 = jsTrim (jsToLower roomRef)) = some kv →
        findCentroid plan roomRef = some kv.2) ∧
    ((roomCentroids plan).find? (fun e => e.1 = jsTrim (jsToLower roomRef)) = none →
        findCentroid plan roomRef =
          ((roomCentroids plan).find? (fun e =>
              jsIncludes e.1 (jsTrim (jsToLower roomRef)) ||
              jsIncludes (jsTrim (jsToLower roomRef)) e.1)).map (fun e => e.2)) ∧
    ((∀ e ∈ roomCentroids plan, e.1 ≠ jsTrim (jsToLower roomRef) ∧
        jsIncludes e.1 (jsTrim (jsToLower roomRef)) = false ∧
        jsIncludes (jsTrim (jsToLower roomRef)) e.1 = false) →
      findCentroid plan roomRef = none) ∧
    (∀ flow : AirflowPath, (findCentroid plan flow.fromRef = none ∨
        findCentroid plan flow.toRef = none) → renderAirflowLine plan flow = none) ∧
    ((∀ z ∈ plan.diagnostics.heat_risk, overlayMatches z.room room.name = false) →
        heatRiskFor plan room = none) ∧
    ((∀ z ∈ plan.diagnostics.daylight, overlayMatches z.room room.name = false) →
        daylightFor plan room = none) := by
  refine ⟨?_, ?_, ?_, ?_, ?_, ?_⟩
  · intro kv h
    simp only [findCentroid]
    rw [h]
  · intro h
    simp only [findCentroid]
    rw [h]
  · intro h
    have hexact : (roomCentroids plan).find?
        (fun e => e.1 = jsTrim (jsToLower roomRef)) = none := by
      rw [List.find?_eq_none]
      intro e he
      simpa using (h e he).1
    have hsub : (roomCentroids plan).find? (fun e =>
        jsIncludes e.1 (jsTrim (jsToLower roomRef)) ||
        jsIncludes (jsTrim (jsToLower roomRef)) e.1) = none := by
      rw [List.find?_eq_none]
      intro e he
      simp [(h e he).2.1, (h e he).2.2]
    simp only [findCentroid]
    rw [hexact, hsub]
    rfl
  · intro flow h
    unfold renderAirflowLine
    rcases h with h | h
    · rw [h]
    · rw [h]
      cases findCentroid plan flow.fromRef <;> rfl
  · intro h
    unfold heatRiskFor
    rw [List.find?_eq_none]
    intro z hz
    simp [h z hz]
  · intro h
    unfold daylightFor
    rw [List.find?_eq_none]
    intro z hz
    simp [h z hz]

/-- Witness for C1 at the concrete plan `cPlanHeat`: the reference `b` has
an exact key in the centroid map and resolves to that entry's centroid. -/
theorem room_reference_resolution_witness :
    findCentroid cPlanHeat ("b") = some cEntryB.2 :=
  (room_reference_resolution cPlanHeat ("b") cRoomB).1 cEntryB rfl

/-- Counterexample to C1 as stated: for the room named `b` of `cPlanHeat`,
the heat-risk list holds an exact case-insensitive match (the zone `b`),
yet the overlay matching selects the earlier substring-matching zone
`room b` — exact matches are not preferred by the heat-risk (or daylight)
matching, so the resolution rule does not hold for the overlays "alike". -/
theorem heat_risk_exact_match_not_preferred :
    heatRiskFor cPlanHeat cRoomB = some ⟨("room b"), .high⟩ ∧
    jsToLower ("b") = jsToLower cRoomB.name ∧
    (⟨("room b"), .high⟩ : HeatRiskZone) ≠ ⟨("b"), .low⟩ := by
  refine ⟨by decide, by decide, by decide⟩

/-! ## The empty reference -/

theorem jsToLower_ne_empty {s : String} (h : s ≠ ("")) : jsToLower s ≠ ("") := by
  intro hc
  apply h
  have hdata : s.data.map Char.toLower = [] := congrArg String.data hc
  have : s.data = [] := List.map_eq_nil_iff.mp hdata
  cases s
  simp_all

theorem jsIncludes_empty (s : String) : jsIncludes s ("") = true := by
  simp [jsIncludes, String.toList]

/-- With pairwise-distinct keys, the centroid-record fold only appends. -/
theorem foldl_insertEntry_of_nodup (f : Room → Point) :
    ∀ (rooms : List Room) (m : List (String × Point)),
      (rooms.map (fun r => jsToLower r.name)).Nodup →
      (∀ r ∈ rooms, ∀ kv ∈ m, kv.1 ≠ jsToLower r.name) →
      rooms.foldl (fun acc r => insertEntry acc (jsToLower r.name) (f r)) m =
        m ++ rooms.map (fun r => (jsToLower r.name, f r)) := by
  intro rooms
  induction rooms with
  | nil => intro m _ _; simp
  | cons a as ih =>
      intro m hnd hdisj
      simp only [List.foldl_cons]
      have hnotin : ¬ (m.any (fun kv => kv.1 = jsToLower a.name) = true) := by
        simp only [List.any_eq_true, not_exists]
        intro kv hkv
        exact absurd (by simpa using hkv.2) (hdisj a (List.mem_cons_self a as) kv hkv.1)
      rw [show insertEntry m (jsToLower a.name) (f a) = m ++ [(jsToLower a.name, f a)] by
        unfold insertEntry
        rw [if_neg hnotin]]
      have hndtail : (as.map (fun r => jsToLower r.name)).Nodup :=
        (List.nodup_cons.mp (by simpa using hnd)).2
      have hhead : jsToLower a.name ∉ as.map (fun r => jsToLower r.name) :=
        (List.nodup_cons.mp (by simpa using hnd)).1
      rw [ih (m ++ [(jsToLower a.name, f a)]) hndtail ?_]
      · simp
      · intro r hr kv hkv
        rcases List.mem_append.mp hkv with hm | hlast
        · exact hdisj r (List.mem_cons_of_mem a hr) kv hm
        · have : kv = (jsToLower a.name, f a) := by simpa using hlast
          subst this
          intro hcontra
          exact hhead (by
            simp only [List.mem_map]
            exact ⟨r, hr, hcontra.symm⟩)

/-- With pairwise-distinct lowercased room names, the centroid record lists
one entry per room, in room order. -/
theorem roomCentroids_of_nodup (plan : FloorPlan) (d : Dims)
    (hd : dimensions plan = some d)
    (hnd : (plan.rooms.map (fun r => jsToLower r.name)).Nodup) :
    roomCentroids plan = plan.rooms.map (fun r => (jsToLower r.name, roomCentroid d r)) := by
  unfold roomCentroids
  rw [hd]
  exact foldl_insertEntry_of_nodup _ plan.rooms [] hnd (by simp)

/-- Claim C10 (amended): a reference that normalizes to the empty string
never yields a miss on a plan with rooms none of which is named the empty
string: the exact lookup fails and the substring scan accepts the first
entry of the centroid record. When the lowercased room names are pairwise
distinct that entry is the first room's centroid; in general it is the
centroid stored for the first-inserted lowercased name, i.e. that of the
last room bearing it. -/
theorem empty_reference_resolves_to_first_room (plan : FloorPlan) (room0 : Room)
    (rest : List Room) (d : Dims) (ref : String)
    (hrooms : plan.rooms = room0 :: rest)
    (hd : dimensions plan = some d)
    (href : jsTrim (jsToLower ref) = (""))
    (hne : ∀ r ∈ plan.rooms, r.name ≠ (""))
    (hnd : (plan.rooms.map (fun r => jsToLower r.name)).Nodup) :
    findCentroid plan ref = some (roomCentroid d room0) := by
  have hmap := roomCentroids_of_nodup plan d hd hnd
  have hexact : (roomCentroids plan).find?
      (fun kv => kv.1 = jsTrim (jsToLower ref)) = none := by
    rw [List.find?_eq_none]
    intro kv hkv
    rw [hmap, hrooms] at hkv
    simp only [List.mem_map] at hkv
    obtain ⟨r, hr, hkv⟩ := hkv
    subst hkv
    rw [href]
    simpa using jsToLower_ne_empty (hne r (by rw [hrooms]; exact hr))
  have hsub : (roomCentroids plan).find? (fun kv =>
      jsIncludes kv.1 (jsTrim (jsToLower ref)) || jsIncludes (jsTrim (jsToLower ref)) kv.1) =
      some (jsToLower room0.name, roomCentroid d room0) := by
    rw [hmap, hrooms, href]
    simp only [List.map_cons]
    exact List.find?_cons_of_pos _ (by simp [jsIncludes_empty])
  simp only [findCentroid]
  rw [hexact, hsub]
  rfl

/-- Witness for C10 at `cPlanTwo` with the whitespace reference. -/
theorem empty_reference_resolves_to_first_room_witness :
    findCentroid cPlanTwo ("  ") = some (roomCentroid cDimsTwo cRoomK) :=
  empty_reference_resolves_to_first_room cPlanTwo cRoomK [cRoomL] cDimsTwo ("  ")
    rfl rfl (by decide) (by decide) (by decide)

/-- Counterexample to C10 as stated: in `cPlanDup` the rooms `A` and `a`
collide after lowercasing, the record keeps the last room's centroid under
the first-inserted key, and the empty reference resolves to the second
room's centroid, not the first room's. -/
theorem empty_reference_not_first_room_on_duplicates :
    cPlanDup.rooms = [cRoomA1, cRoomA2] ∧
    (∀ r ∈ cPlanDup.rooms, r.name ≠ ("")) ∧
    jsTrim (jsToLower ("")) = ("") ∧
    findCentroid cPlanDup ("") = some (roomCentroid cDimsDup cRoomA2) ∧
    roomCentroid cDimsDup cRoomA2 ≠ roomCentroid cDimsDup cRoomA1 := by
  refine ⟨rfl, by decide, by decide, rfl, ?_⟩
  intro h
  have hx := congrArg Point.x h
  norm_num [roomCentroid, cRoomA1, cRoomA2, cDimsDup, cPlanDup, dimensions, planBounds,
    boundsStep, dimsOf, SCALE, PADDING, min_def, max_def] at hx

/-! ## Airflow stroke attributes and the average score -/

/-- Claim C7, evaluated at the failing input: the airflow renderer compares
`flow.efficiency` — a property absent from `AirflowPath`, whose declared
field is `strength` — against the string `high`, so the comparison is never
true and every airflow line is drawn with stroke width 2 and opacity 0.6,
identical for `strong` and `weak` entries instead of increasing with
strength. -/
theorem airflow_stroke_ignores_strength :
    airflowStrokeWidth ⟨("a"), ("b"), .strong⟩ = 2 ∧
    airflowStrokeOpacity ⟨("a"), ("b"), .strong⟩ = 6/10 ∧
    airflowStrokeWidth ⟨("a"), ("b"), .weak⟩ = airflowStrokeWidth ⟨("a"), ("b"), .strong⟩ ∧
    airflowStrokeOpacity ⟨("a"), ("b"), .weak⟩ = airflowStrokeOpacity ⟨("a"), ("b"), .strong⟩ := by
  refine ⟨?_, ?_, rfl, rfl⟩ <;>
    simp [airflowStrokeWidth, airflowStrokeOpacity, AirflowPath.efficiencyField]

/-- Claim C8: the displayed overall score is the rounded mean of the four
performance metrics times 100 (equivalently, 25 times their sum, rounded). -/
theorem avg_score_is_rounded_mean (m : PerformanceMetrics) :
    avgScore m = jsRound (((m.naturalLightScore + m.ventilationEfficiency +
        m.thermalMassUtilization + m.solarControlRating) / 4) * 100) ∧
    avgScore m = jsRound ((m.naturalLightScore + m.ventilationEfficiency +
        m.thermalMassUtilization + m.solarControlRating) * 25) := by
  refine ⟨rfl, ?_⟩
  unfold avgScore jsRound
  congr 1
  ring

/-! ## The Generate workflow -/

/-- Claim C3: with a non-empty location, when both remote calls succeed the
workflow issues exactly the climate call followed by the design call fed
with the climate call's output, and the final state holds both results with
the generating flag false; when the second call fails the final state has
the error set and the generating flag false, and the workflow stores no
floor plan (the field is unchanged — in particular still absent when it was
absent at invocation). -/
theorem generate_two_calls_then_state (o : GenOracle) (location pd pr req : String)
    (s : DesignState) (h : location ≠ ("")) :
    (∀ c p, o.getClimateData = .ok c → o.generateDesign c = .ok p →
      (handleGenerate o location pd pr req s).calls =
          [.climateCall location pd pr, .designCall c pd req] ∧
      (finalState s (handleGenerate o location pd pr req s)).climate = some c ∧
      (finalState s (handleGenerate o location pd pr req s)).floorPlan = some p ∧
      (finalState s (handleGenerate o location pd pr req s)).isGenerating = false) ∧
    (∀ c e, o.getClimateData = .ok c → o.generateDesign c = .error e →
      (handleGenerate o location pd pr req s).calls =
          [.climateCall location pd pr, .designCall c pd req] ∧
      (finalState s (handleGenerate o location pd pr req s)).error = some (genErrMsg e) ∧
      (finalState s (handleGenerate o location pd pr req s)).isGenerating = false ∧
      (finalState s (handleGenerate o location pd pr req s)).floorPlan = s.floorPlan ∧
      (s.floorPlan = none →
        (finalState s (handleGenerate o location pd pr req s)).floorPlan = none)) := by
  constructor
  · intro c p hc hp
    simp [handleGenerate, if_neg h, hc, hp, finalState]
  · intro c e hc he
    refine ⟨?_, ?_, ?_, ?_, ?_⟩ <;>
      simp [handleGenerate, if_neg h, hc, he, finalState]

/-- Witness for C3: the success case at a concrete oracle and the initial
state. -/
theorem generate_two_calls_then_state_witness :
    (handleGenerate cGenOracleOk ("Phoenix") ("15m x 20m") ("daylight") ("3 bedrooms")
        initialState).calls =
      [.climateCall ("Phoenix") ("15m x 20m") ("daylight"),
       .designCall cClimate ("15m x 20m") ("3 bedrooms")] ∧
    (finalState initialState (handleGenerate cGenOracleOk ("Phoenix") ("15m x 20m")
        ("daylight") ("3 bedrooms") initialState)).climate = some cClimate ∧
    (finalState initialState (handleGenerate cGenOracleOk ("Phoenix") ("15m x 20m")
        ("daylight") ("3 bedrooms") initialState)).floorPlan = some cPlanTwo ∧
    (finalState initialState (handleGenerate cGenOracleOk ("Phoenix") ("15m x 20m")
        ("daylight") ("3 bedrooms") initialState)).isGenerating = false :=
  (generate_two_calls_then_state cGenOracleOk ("Phoenix") ("15m x 20m") ("daylight")
      ("3 bedrooms") initialState (by decide)).1 cClimate cPlanTwo rfl rfl

/-- Claim C4 (amended): no execution of any workflow observes climate
stored without a floor plan. The generate workflow stores the climate only
in the same update that stores the plan — on a second-call failure the
climate field is unchanged — and every state produced by the three
workflows preserves the invariant that a present climate implies a present
plan. -/
theorem climate_never_stored_without_plan (s : DesignState) (go : GenOracle)
    (ro : RefineOracle) (dgo : DiagOracle) (location pd pr req : String)
    (hinv : s.climate.isSome = true → s.floorPlan.isSome = true) :
    (∀ t ∈ (handleGenerate go location pd pr req s).states,
        t.climate.isSome = true → t.floorPlan.isSome = true) ∧
    (∀ t ∈ (handleRefine ro s).states,
        t.climate.isSome = true → t.floorPlan.isSome = true) ∧
    (∀ t ∈ (handleRunDiagnostics dgo s).states,
        t.climate.isSome = true → t.floorPlan.isSome = true) := by
  refine ⟨?_, ?_, ?_⟩
  · intro t ht
    by_cases hloc : location = ("")
    · simp [handleGenerate, hloc] at ht
    · rcases hgc : go.getClimateData with e | c
      · simp only [handleGenerate, if_neg hloc, hgc, List.mem_cons,
          List.mem_singleton, List.not_mem_nil, or_false] at ht
        rcases ht with rfl | rfl <;> exact hinv
      · rcases hgd : go.generateDesign c with e | p
        · simp only [handleGenerate, if_neg hloc, hgc, hgd, List.mem_cons,
            List.mem_singleton, List.not_mem_nil, or_false] at ht
          rcases ht with rfl | rfl <;> exact hinv
        · simp only [handleGenerate, if_neg hloc, hgc, hgd, List.mem_cons,
            List.mem_singleton, List.not_mem_nil, or_false] at ht
          rcases ht with rfl | rfl
          · exact hinv
          · intro _; rfl
  · intro t ht
    rcases hfp : s.floorPlan with _ | plan
    · simp [handleRefine, hfp] at ht
    · rcases hcl : s.climate with _ | cl
      · simp [handleRefine, hfp, hcl] at ht
      · rcases hr : ro.refineDesign plan cl with e | refinement
        · simp only [handleRefine, hfp, hcl, hr, List.mem_cons,
            List.mem_singleton, List.not_mem_nil, or_false] at ht
          rcases ht with rfl | rfl <;> · intro _; simp [hfp]
        · rcases hv : ro.evaluateOptimization
              refinement.revised_floor_plan.performanceMetrics with e | verdict
          · simp only [handleRefine, hfp, hcl, hr, hv, List.mem_cons,
              List.mem_singleton, List.not_mem_nil, or_false] at ht
            rcases ht with rfl | rfl | rfl | rfl
            · intro _; simp [hfp]
            all_goals intro _; rfl
          · simp only [handleRefine, hfp, hcl, hr, hv, List.mem_cons,
              List.mem_singleton, List.not_mem_nil, or_false] at ht
            rcases ht with rfl | rfl | rfl | rfl
            · intro _; simp [hfp]
            all_goals intro _; rfl
  · intro t ht
    rcases hfp : s.floorPlan with _ | plan
    · simp [handleRunDiagnostics, hfp] at ht
    · rcases hd : dgo.getDiagnostics plan with e | diagnostics
      · simp only [handleRunDiagnostics, hfp, hd, List.mem_cons,
          List.mem_singleton, List.not_mem_nil, or_false] at ht
        rcases ht with rfl | rfl <;> · intro _; simp [hfp]
      · simp only [handleRunDiagnostics, hfp, hd, List.mem_cons,
          List.mem_singleton, List.not_mem_nil, or_false] at ht
        rcases ht with rfl | rfl <;> · intro _; simp [hfp]

/-- Witness for C4's amended statement: after a fully successful generate
from the initial state, the final state (whose climate is present) holds a
plan. -/
theorem climate_never_stored_without_plan_witness :
    (finalState initialState (handleGenerate cGenOracleOk ("Phoenix") ("p") ("c") ("r")
        initialState)).floorPlan.isSome = true :=
  (climate_never_stored_without_plan initialState cGenOracleOk cRefineOracleOk cDiagOracle1
      ("Phoenix") ("p") ("c") ("r") (fun h => by simp [initialState] at h)).1
    (finalState initialState (handleGenerate cGenOracleOk ("Phoenix") ("p") ("c") ("r")
        initialState))
    (by simp [handleGenerate, cGenOracleOk, finalState])
    (by simp [handleGenerate, cGenOracleOk, finalState])

/-- Counterexample to C4 as stated: the execution it describes — climate
call succeeds, design call fails — stores the climate in no state of the
trace; climate-without-plan is not observable. -/
theorem generate_failure_stores_no_climate :
    cGenOracleFail.getClimateData = .ok cClimate ∧
    cGenOracleFail.generateDesign cClimate = .error ("boom") ∧
    ((handleGenerate cGenOracleFail ("Phoenix") ("15m x 20m") ("cooling") ("3 bedrooms")
        initialState).states.all (fun t => t.climate.isNone && t.floorPlan.isNone)) = true := by
  refine ⟨rfl, rfl, by decide⟩

/-! ## The Refine workflow -/

/-- Claim C5: on success the revised plan becomes current, the prior plan
is retained as the previous plan, and an evaluation call is issued with the
new plan's metrics, its verdict stored with the evaluating flag cleared; on
failure at either call both flags end false with the fixed error message. -/
theorem refine_then_evaluate (o : RefineOracle) (s : DesignState) (plan : FloorPlan)
    (cl : ClimateData) (hp : s.floorPlan = some plan) (hc : s.climate = some cl) :
    (∀ refinement verdict, o.refineDesign plan cl = .ok refinement →
        o.evaluateOptimization refinement.revised_floor_plan.performanceMetrics = .ok verdict →
      (handleRefine o s).calls =
        [.refineCall plan cl, .evalCall refinement.revised_floor_plan.performanceMetrics] ∧
      (finalState s (handleRefine o s)).floorPlan = some refinement.revised_floor_plan ∧
      (finalState s (handleRefine o s)).previousFloorPlan = some plan ∧
      (finalState s (handleRefine o s)).refinement = some refinement ∧
      (finalState s (handleRefine o s)).optimizationVerdict = some verdict ∧
      (finalState s (handleRefine o s)).isRefining = false ∧
      (finalState s (handleRefine o s)).isEvaluating = false) ∧
    (∀ e, o.refineDesign plan cl = .error e →
      (finalState s (handleRefine o s)).isRefining = false ∧
      (finalState s (handleRefine o s)).isEvaluating = false ∧
      (finalState s (handleRefine o s)).error = some refineErrMsg) ∧
    (∀ refinement e, o.refineDesign plan cl = .ok refinement →
        o.evaluateOptimization refinement.revised_floor_plan.performanceMetrics = .error e →
      (finalState s (handleRefine o s)).isRefining = false ∧
      (finalState s (handleRefine o s)).isEvaluating = false ∧
      (finalState s (handleRefine o s)).error = some refineErrMsg) := by
  refine ⟨?_, ?_, ?_⟩
  · intro refinement verdict hr hv
    simp [handleRefine, hp, hc, hr, hv, finalState]
  · intro e hr
    simp [handleRefine, hp, hc, hr, finalState]
  · intro refinement e hr hv
    simp [handleRefine, hp, hc, hr, hv, finalState]

/-- Witness for C5: the success case at a concrete oracle and state. -/
theorem refine_then_evaluate_witness :
    (handleRefine cRefineOracleOk cStateWithPlan).calls =
      [.refineCall cPlanTwo cClimate,
       .evalCall cRefinement.revised_floor_plan.performanceMetrics] ∧
    (finalState cStateWithPlan (handleRefine cRefineOracleOk cStateWithPlan)).floorPlan =
      some cRefinement.revised_floor_plan ∧
    (finalState cStateWithPlan (handleRefine cRefineOracleOk cStateWithPlan)).previousFloorPlan =
      some cPlanTwo ∧
    (finalState cStateWithPlan (handleRefine cRefineOracleOk cStateWithPlan)).refinement =
      some cRefinement ∧
    (finalState cStateWithPlan (handleRefine cRefineOracleOk cStateWithPlan)).optimizationVerdict =
      some cVerdict ∧
    (finalState cStateWithPlan (handleRefine cRefineOracleOk cStateWithPlan)).isRefining = false ∧
    (finalState cStateWithPlan (handleRefine cRefineOracleOk cStateWithPlan)).isEvaluating = false :=
  (refine_then_evaluate cRefineOracleOk cStateWithPlan cPlanTwo cClimate rfl rfl).1
    cRefinement cVerdict rfl rfl

/-! ## The Diagnose workflow -/

/-- Claim C6: a successful diagnose replaces only the `diagnostics` field of
the current plan, every other plan field being unchanged; running diagnose
twice in succession with no intervening workflow leaves every plan field
other than `diagnostics` unchanged across both calls. -/
theorem diagnose_changes_only_diagnostics (o1 o2 : DiagOracle) (s : DesignState)
    (p : FloorPlan) (d1 d2 : ClimateDiagnostics)
    (hp : s.floorPlan = some p)
    (h1 : o1.getDiagnostics p = .ok d1)
    (h2 : o2.getDiagnostics { p with diagnostics := d1 } = .ok d2) :
    (finalState s (handleRunDiagnostics o1 s)).floorPlan = some { p with diagnostics := d1 } ∧
    samePlanFrame { p with diagnostics := d1 } p ∧
    (finalState (finalState s (handleRunDiagnostics o1 s))
        (handleRunDiagnostics o2 (finalState s (handleRunDiagnostics o1 s)))).floorPlan =
      some { p with diagnostics := d2 } ∧
    samePlanFrame { p with diagnostics := d2 } p := by
  have hfinal1 : (finalState s (handleRunDiagnostics o1 s)).floorPlan =
      some { p with diagnostics := d1 } := by
    simp [handleRunDiagnostics, hp, h1, finalState]
  have hstep : ∀ (s1 : DesignState), s1.floorPlan = some { p with diagnostics := d1 } →
      (finalState s1 (handleRunDiagnostics o2 s1)).floorPlan =
        some { p with diagnostics := d2 } := by
    intro s1 h1'
    simp [handleRunDiagnostics, h1', h2, finalState]
  exact ⟨hfinal1, ⟨rfl, rfl, rfl, rfl, rfl, rfl, rfl⟩, hstep _ hfinal1,
    ⟨rfl, rfl, rfl, rfl, rfl, rfl, rfl⟩⟩

/-- Witness for C6 at a concrete state and two concrete diagnostics
oracles. -/
theorem diagnose_changes_only_diagnostics_witness :
    (finalState cStateWithPlan (handleRunDiagnostics cDiagOracle1 cStateWithPlan)).floorPlan =
      some { cPlanTwo with diagnostics := cDiag1 } ∧
    samePlanFrame { cPlanTwo with diagnostics := cDiag1 } cPlanTwo ∧
    (finalState (finalState cStateWithPlan (handleRunDiagnostics cDiagOracle1 cStateWithPlan))
        (handleRunDiagnostics cDiagOracle2
          (finalState cStateWithPlan (handleRunDiagnostics cDiagOracle1 cStateWithPlan)))).floorPlan =
      some { cPlanTwo with diagnostics := cDiag2 } ∧
    samePlanFrame { cPlanTwo with diagnostics := cDiag2 } cPlanTwo :=
  diagnose_changes_only_diagnostics cDiagOracle1 cDiagOracle2 cStateWithPlan cPlanTwo
    cDiag1 cDiag2 rfl rfl rfl

/-! ## The history log -/

/-- Claim C9: every workflow run leaves the prior history a prefix of the
history of every state it stores (entries are preserved in order; new ones
are only appended at the end), and histories grow monotonically along each
run's successive states. -/
theorem history_append_only (go : GenOracle) (ro : RefineOracle) (dgo : DiagOracle)
    (location pd pr req : String) (s : DesignState) :
    (∀ t ∈ (handleGenerate go location pd pr req s).states, s.history <+: t.history) ∧
    (∀ t ∈ (handleRefine ro s).states, s.history <+: t.history) ∧
    (∀ t ∈ (handleRunDiagnostics dgo s).states, s.history <+: t.history) ∧
    List.Chain' (fun a b => a.history <+: b.history)
      (s :: (handleGenerate go location pd pr req s).states) ∧
    List.Chain' (fun a b => a.history <+: b.history) (s :: (handleRefine ro s).states) ∧
    List.Chain' (fun a b => a.history <+: b.history)
      (s :: (handleRunDiagnostics dgo s).states) := by
  have hgen : ∀ t ∈ (handleGenerate go location pd pr req s).states,
      s.history <+: t.history := by
    intro t ht
    by_cases hloc : location = ("")
    · simp [handleGenerate, hloc] at ht
    · rcases hgc : go.getClimateData with e | c
      · simp only [handleGenerate, if_neg hloc, hgc, List.mem_cons,
          List.mem_singleton, List.not_mem_nil, or_false] at ht
        rcases ht with rfl | rfl <;> exact List.prefix_refl _
      · rcases hgd : go.generateDesign c with e | p <;>
          · simp only [handleGenerate, if_neg hloc, hgc, hgd, List.mem_cons,
              List.mem_singleton, List.not_mem_nil, or_false] at ht
            rcases ht with rfl | rfl
            · exact List.prefix_refl _
            · first
                | exact List.prefix_refl _
                | exact List.prefix_append _ _
  have href : ∀ t ∈ (handleRefine ro s).states, s.history <+: t.history := by
    intro t ht
    rcases hfp : s.floorPlan with _ | plan
    · simp [handleRefine, hfp] at ht
    · rcases hcl : s.climate with _ | cl
      · simp [handleRefine, hfp, hcl] at ht
      · rcases hr : ro.refineDesign plan cl with e | refinement
        · simp only [handleRefine, hfp, hcl, hr, List.mem_cons,
            List.mem_singleton, List.not_mem_nil, or_false] at ht
          rcases ht with rfl | rfl <;> exact List.prefix_refl _
        · rcases hv : ro.evaluateOptimization
              refinement.revised_floor_plan.performanceMetrics with e | verdict <;>
            · simp only [handleRefine, hfp, hcl, hr, hv, List.mem_cons,
                List.mem_singleton, List.not_mem_nil, or_false] at ht
              rcases ht with rfl | rfl | rfl | rfl
              · exact List.prefix_refl _
              all_goals exact List.prefix_append _ _
  have hdiag : ∀ t ∈ (handleRunDiagnostics dgo s).states, s.history <+: t.history := by
    intro t ht
    rcases hfp : s.floorPlan with _ | plan
    · simp [handleRunDiagnostics, hfp] at ht
    · rcases hd : dgo.getDiagnostics plan with e | diagnostics <;>
        · simp only [handleRunDiagnostics, hfp, hd, List.mem_cons,
            List.mem_singleton, List.not_mem_nil, or_false] at ht
          rcases ht with rfl | rfl <;> exact List.prefix_refl _
  refine ⟨hgen, href, hdiag, ?_, ?_, ?_⟩
  · by_cases hloc : location = ("")
    · simp [handleGenerate, hloc]
    · rcases hgc : go.getClimateData with e | c
      · simp only [handleGenerate, if_neg hloc, hgc]
        simp [List.chain'_cons, List.prefix_refl]
      · rcases hgd : go.generateDesign c with e | p <;>
          · simp only [handleGenerate, if_neg hloc, hgc, hgd]
            simp [List.chain'_cons, List.prefix_refl, List.prefix_append]
  · rcases hfp : s.floorPlan with _ | plan
    · simp [handleRefine, hfp]
    · rcases hcl : s.climate with _ | cl
      · simp [handleRefine, hfp, hcl]
      · rcases hr : ro.refineDesign plan cl with e | refinement
        · simp only [handleRefine, hfp, hcl, hr]
          simp [List.chain'_cons, List.prefix_refl]
        · rcases hv : ro.evaluateOptimization
              refinement.revised_floor_plan.performanceMetrics with e | verdict <;>
            · simp only [handleRefine, hfp, hcl, hr, hv]
              simp [List.chain'_cons, List.prefix_refl, List.prefix_append]
  · rcases hfp : s.floorPlan with _ | plan
    · simp [handleRunDiagnostics, hfp]
    · rcases hd : dgo.getDiagnostics plan with e | diagnostics <;>
        · simp only [handleRunDiagnostics, hfp, hd]
          simp [List.chain'_cons, List.prefix_refl]

/-- Witness for C9: the prior (empty) history is a prefix of the final
history of a successful generate run. -/
theorem history_append_only_witness :
    initialState.history <+: (finalState initialState
        (handleGenerate cGenOracleOk ("x") ("p") ("c") ("r") initialState)).history :=
  (history_append_only cGenOracleOk cRefineOracleOk cDiagOracle1 ("x") ("p") ("c") ("r")
      initialState).1
    (finalState initialState (handleGenerate cGenOracleOk ("x") ("p") ("c") ("r") initialState))
    (by simp [handleGenerate, cGenOracleOk, finalState])

end ClimateSense
